import Mathlib

/-!
Verification of the `aas_workshop_2020_winter` notebooks.

The repository consists of two Jupyter notebooks that query astronomical
registries and Simple Image Access (SIA) services.  The development below
shallowly embeds the notebooks' glue code (filters, indexing, call order,
caching) and the external collaborator interfaces the spec describes, and
proves or refutes the frozen claims about them.
-/

deriving instance DecidableEq for Except

namespace AasWorkshop

/-- Runtime errors that the Python code can raise: an out-of-range index
(`IndexError`), a failing external service (`DALServiceError` and friends),
and a network failure. -/
inductive Err where
  | indexError
  | serviceError
  | netError
  deriving DecidableEq, Repr

/-- A registry service descriptor, as read by the notebooks: the fields
`ivoid`, `short_name` and `res_title` are the three columns the notebooks
project out of the registry result
(`uv_services.to_table()['ivoid','short_name','res_title']`). -/
structure Service where
  ivoid : String
  short_name : String
  res_title : String
  deriving DecidableEq, Repr

/-- Python `xs[i]` on a list or a DAL result table: the `i`-th element when
`i < len(xs)`, an `IndexError` otherwise (negative indices do not occur in
the notebooks). -/
def pyGetIdx {α : Type} (xs : List α) (i : Nat) : Except Err α :=
  match xs.get? i with
  | some x => Except.ok x
  | none => Except.error Err.indexError

/-- Whether the character list `n` begins the second character list. -/
def startsWithL : List Char → List Char → Bool
  | [], _ => true
  | _ :: _, [] => false
  | a :: as, b :: bs => a = b && startsWithL as bs

/-- Whether the character list `n` occurs contiguously inside the second
character list.  This is Python's substring test on strings. -/
def containsSubL (n : List Char) : List Char → Bool
  | [] => startsWithL n []
  | c :: cs => startsWithL n (c :: cs) || containsSubL n cs

/-- Python's substring test `needle in hay` on `str` values. -/
def pyIn (needle hay : String) : Bool :=
  containsSubL needle.data hay.data

/-- The predicate of the comprehension
`[s for s in services if 'SDSSDR7' in s.short_name and 'heasarc' in s.ivoid]`. -/
def dr7Heasarc (s : Service) : Bool :=
  pyIn "SDSSDR7" s.short_name && pyIn "heasarc" s.ivoid

/-- The predicate of the comprehension
`[s for s in services if 'SDSSDR7' in s.short_name and 'jhu' in s.ivoid]`. -/
def dr7Jhu (s : Service) : Bool :=
  pyIn "SDSSDR7" s.short_name && pyIn "jhu" s.ivoid

/-- Embedding of `[s for s in services if p s][0]` : filter the list, keep
order, take element `0`; raises `IndexError` when no element passes the
filter. -/
def selectFirst (p : Service → Bool) (l : List Service) : Except Err Service :=
  pyGetIdx (l.filter p) 0

/-- Modelled from the spec: pyvo DAL result records are not part of this
repository.  Per the spec, an image result record is a row of
service-defined columns, one of which (under a service-specific name,
`accessCol`) is the access URL; the record "exposes a method to obtain its
data URL" whatever that column is called. -/
structure ImRec where
  columns : List (String × String)
  accessCol : String
  hAccess : (columns.lookup accessCol).isSome = true

/-- Modelled from the spec: pyvo's `Record.getdataurl()`, which returns the
access URL of the record independently of the service's column naming. -/
def ImRec.getdataurl (r : ImRec) : String :=
  (r.columns.lookup r.accessCol).get r.hAccess

/-- Modelled from the spec: pyvo's `Record.getdataobj()`, which fetches the
decoded payload behind the record's data URL directly ("optionally, to
fetch the decoded payload directly"); `fetch` dereferences a URL. -/
def ImRec.getdataobj (fetch : String → List Nat) (r : ImRec) : List Nat :=
  fetch r.getdataurl

/-- A sky position, as resolved by `coord.SkyCoord.from_name`. -/
abbrev Pos := String

/-- Modelled from the spec: pyvo's `search()` method sends an omitted
format parameter as the string `all` — per the source comment "If you
specify nothing, then the search() method puts format=all". -/
def resolveFormat : Option String → String
  | none => "all"
  | some f => f

/-- Modelled from the spec: an SIA service as the notebooks see it — a
black-box collaborator that, for a query whose resolved format string it
accepts, returns a table of image result records, and errors otherwise. -/
structure SIAService where
  accepts : String → Bool
  results : Pos → Rat → String → List ImRec

/-- Modelled from the spec: the image-access query interface, "accepting
sky position, angular size, and optional MIME-type format string,
returning a table of result records"; a format the service rejects makes
the call raise a service error. -/
def SIAService.search (svc : SIAService) (pos : Pos) (size : Rat)
    (fmt : Option String) : Except Err (List ImRec) :=
  if svc.accepts (resolveFormat fmt) then
    Except.ok (svc.results pos size (resolveFormat fmt))
  else
    Except.error Err.serviceError

/-- Formats served by the SkyView UVOT service: the notebook successfully
queries it with `image/jpeg` and with `image/fits`. -/
def uvotAccepts (f : String) : Bool :=
  f = "image/jpeg" || f = "image/fits"

/-- Formats served by HEASARC SkyView DR7: the notebook successfully
queries it with `image/fits`. -/
def heasarcDr7Accepts (f : String) : Bool :=
  f = "image/fits"

/-- Formats accepted by the JHU SkyServer DR7 service, modelled from the
source comment: its access URL has a hard-wired `format=image/fits`, any
explicitly specified format errors, an omitted format is sent as
`format=all` which also errors, and only the empty string works. -/
def jhuDr7Accepts (f : String) : Bool :=
  f = ""

/-- The three services the notebook selects and then queries. -/
inductive SelKind where
  | uvot0
  | heasarcDr7
  | jhuDr7
  deriving DecidableEq, Repr

/-- The format-acceptance behaviour of each queried service. -/
def serviceAccepts : SelKind → String → Bool
  | SelKind.uvot0 => uvotAccepts
  | SelKind.heasarcDr7 => heasarcDr7Accepts
  | SelKind.jhuDr7 => jhuDr7Accepts

/-- Modelled from the spec: numpy's elementwise `np.isin(col, v)` with a
scalar second argument — each element of the column is tested for exact
equality with `v`. -/
def npIsin (col : List String) (v : String) : List Bool :=
  col.map (fun x => decide (x = v))

/-- Modelled from the spec: numpy's `np.where(mask)` on a one-dimensional
boolean mask — the indices of the true entries, in increasing order. -/
def npWhere : List Bool → List Nat
  | [] => []
  | b :: bs => (if b then [0] else []) ++ (npWhere bs).map (fun i => i + 1)

/-- Embedding of the notebook row filter
`services.to_table()[np.where(np.isin(services.to_table()['short_name'], b'SDSSDR7'))]`:
fancy-index the table by the positions where `short_name` equals `v`. -/
def isinWhereSelect (tbl : List Service) (v : String) : List Service :=
  (npWhere (npIsin (tbl.map Service.short_name) v)).filterMap (fun i => tbl.get? i)

/-- One primitive step of the notebooks, in cell-execution order: registry
searches, table renderings, name resolution, service selection, the numpy
row filter, SIA queries, data-URL extraction, downloads and display. -/
inductive Op where
  | regsearchOp (servicetype : Option String) (waveband : Option String)
      (keywords : Option (List String))
  | toTableOp
  | fromNameOp (src : String)
  | selectOp (k : SelKind)
  | npFilterOp
  | siaSearchOp (k : SelKind) (fmt : Option String)
  | getdataurlOp (tbl : String) (idx : Nat)
  | printOp
  | displayOp
  | fitsOpenOp
  | plotOp
  | downloadFileOp (cache : Bool)
  deriving DecidableEq, Repr

/-- Cell `uv_services = vo.regsearch(servicetype='image',waveband='uv')`
plus the table rendering. -/
def cellUvSearch : List Op :=
  [Op.regsearchOp (some "image") (some "uv") none, Op.toTableOp]

/-- Cell `uvot_services = vo.regsearch(servicetype='image',waveband='uv',keywords=['swift'])`. -/
def cellUvotSearch : List Op :=
  [Op.regsearchOp (some "image") (some "uv") (some ["swift"]), Op.toTableOp]

/-- Cell resolving m51 and querying
`uvot_services[0].search(pos=coords,size=0.2,format='image/jpeg')`. -/
def cellImQuery : List Op :=
  [Op.fromNameOp "m51", Op.selectOp SelKind.uvot0,
   Op.siaSearchOp SelKind.uvot0 (some "image/jpeg"), Op.toTableOp]

/-- Cell `url = im_table[0].getdataurl(); print(url)`. -/
def cellPrintUrl : List Op :=
  [Op.getdataurlOp "im_table" 0, Op.printOp]

/-- Cell `img = ipImage(url=im_table[0].getdataurl()); display(img)`. -/
def cellDisplayJpeg : List Op :=
  [Op.getdataurlOp "im_table" 0, Op.displayOp]

/-- Cell repeating the search with `format='image/fits'` and handing the
first result URL to `fits.open`. -/
def cellFitsQuery : List Op :=
  [Op.selectOp SelKind.uvot0, Op.siaSearchOp SelKind.uvot0 (some "image/fits"),
   Op.getdataurlOp "im_table" 0, Op.fitsOpenOp]

/-- Cell `plt.imshow(hdu_list[0].data, ...)`. -/
def cellImshow : List Op :=
  [Op.plotOp]

/-- Cell rendering the FITS image through aplpy. -/
def cellAplpy : List Op :=
  [Op.plotOp]

/-- Cell `services = vo.regsearch(servicetype='image', keywords=['sloan'], waveband='optical')`
followed by the numpy row filter over its table. -/
def cellSloanSearch : List Op :=
  [Op.regsearchOp (some "image") (some "optical") (some ["sloan"]),
   Op.toTableOp, Op.toTableOp, Op.npFilterOp]

/-- Cell selecting `heasarc_dr7_service` and querying it with
`format='image/fits'`. -/
def cellHeasarcQuery : List Op :=
  [Op.selectOp SelKind.heasarcDr7,
   Op.siaSearchOp SelKind.heasarcDr7 (some "image/fits"), Op.toTableOp]

/-- Cell `file_name=download_file(sdss_table_heasarc[0].getdataurl(),cache=True)`
followed by `fits.open` and `plt.imshow`. -/
def cellHeasarcDownload : List Op :=
  [Op.getdataurlOp "sdss_table_heasarc" 0, Op.downloadFileOp true,
   Op.fitsOpenOp, Op.plotOp]

/-- Cell selecting `jhu_dr7_service` and querying it with `format=''`. -/
def cellJhuQuery : List Op :=
  [Op.selectOp SelKind.jhuDr7, Op.siaSearchOp SelKind.jhuDr7 (some ""),
   Op.toTableOp]

/-- Cell `file_name=download_file(sdss_table_jhu[1].getdataurl(),cache=True)`
followed by `fits.open` and `plt.imshow`. -/
def cellJhuDownload : List Op :=
  [Op.getdataurlOp "sdss_table_jhu" 1, Op.downloadFileOp true,
   Op.fitsOpenOp, Op.plotOp]

/-- The code cells of `CS_Image_Access.ipynb`, in notebook order (the
initial module-loading cell contributes no modelled operation). -/
def notebookCells : List (List Op) :=
  [cellUvSearch, cellUvotSearch, cellImQuery, cellPrintUrl, cellDisplayJpeg,
   cellFitsQuery, cellImshow, cellAplpy, cellSloanSearch, cellHeasarcQuery,
   cellHeasarcDownload, cellJhuQuery, cellJhuDownload]

/-- The whole notebook, flattened into one sequential operation list, as
the notebook executes cell by cell. -/
def notebookProgram : List Op :=
  notebookCells.flatten

/-- Effect of one operation on the persistent astropy download cache (the
set of cached URLs, surviving the cell and the session): only
`download_file(..., cache=True)` touches it, adding the downloaded URL;
`url` is the data URL in scope when the operation runs. -/
def opCacheStep (op : Op) (url : String) (c : List String) : List String :=
  match op with
  | Op.downloadFileOp true => if url ∈ c then c else url :: c
  | _ => c

/-- Run one cell over the persistent download cache. -/
def cellCacheRun (ops : List Op) (url : String) (c : List String) : List String :=
  ops.foldl (fun acc op => opCacheStep op url acc) c

/-- Run a list of operations against an environment that either completes
an operation or raises: returns the operations actually executed and the
outcome.  There is no handler anywhere — the first raised exception stops
the run and becomes its result, exactly as in the notebook, which contains
no try/except. -/
def runTrace (env : Op → Except Err Unit) : List Op → List Op × Except Err Unit
  | [] => ([], Except.ok ())
  | o :: rest =>
    match env o with
    | Except.error e => ([o], Except.error e)
    | Except.ok _ =>
      let p := runTrace env rest
      (o :: p.1, p.2)

/-- Embedding of a download cell `download_file(tbl[i].getdataurl(), ...)`:
index the result table at `i`, then download that record's URL; the first
component lists the URLs actually downloaded. -/
def downloadCellAt (fetch : ImRec → String) (l : List ImRec) (i : Nat) :
    List String × Except Err Unit :=
  match pyGetIdx l i with
  | Except.error e => ([], Except.error e)
  | Except.ok r => ([fetch r], Except.ok ())

/-- Operation classifiers for the workflow-order claim. -/
def Op.isRegsearch : Op → Bool
  | Op.regsearchOp _ _ _ => true
  | _ => false

/-- Whether the operation selects a service from a registry result. -/
def Op.isSelect : Op → Bool
  | Op.selectOp _ => true
  | _ => false

/-- Whether the operation is a position/size/format image query. -/
def Op.isSiaSearch : Op → Bool
  | Op.siaSearchOp _ _ => true
  | _ => false

/-- Whether the operation extracts a data URL from a result record. -/
def Op.isGetdataurl : Op → Bool
  | Op.getdataurlOp _ _ => true
  | _ => false

/-- Whether the operation dereferences a data URL, downloading a FITS or
JPEG payload (`download_file`, `fits.open` on a URL, or the jpeg display,
which fetches the URL it is given). -/
def Op.isFetch : Op → Bool
  | Op.downloadFileOp _ => true
  | Op.fitsOpenOp => true
  | Op.displayOp => true
  | _ => false

/-- Whether the operation hands pixels to the plotting collaborator. -/
def Op.isPlot : Op → Bool
  | Op.plotOp => true
  | _ => false

/-- Whether the operation is `download_file(..., cache=True)`, the only
operation that touches persistent state. -/
def Op.isCachingDownload : Op → Bool
  | Op.downloadFileOp true => true
  | _ => false

/-- The `servicetype` argument of a registry search operation. -/
def Op.regsearchServicetype : Op → Option (Option String)
  | Op.regsearchOp st _ _ => some st
  | _ => none

/-- For an SIA query operation: whether it passes an explicit format
string that the queried service accepts (vacuously true for other
operations). -/
def siaQueryOk : Op → Bool
  | Op.siaSearchOp k fmt => fmt.isSome && serviceAccepts k (resolveFormat fmt)
  | _ => true

/-- A concrete image result record used to instantiate the theorems. -/
def exRec : ImRec :=
  ⟨[("access_url", "https://skyview.gsfc.nasa.gov/images/m51_uvot.jpg")],
   "access_url", by decide⟩

/-- A concrete registry row that matches neither DR7 comprehension. -/
def svcGalex : Service :=
  ⟨"ivo://archive.stsci.edu/sia/galex", "GALEX", "GALEX image survey"⟩

/-- A concrete registry row matching the HEASARC DR7 comprehension. -/
def svcHeasarcDr7 : Service :=
  ⟨"ivo://nasa.heasarc/skyview/sdssdr7", "SDSSDR7", "SDSS DR7 via SkyView"⟩

/-- A concrete registry row matching the JHU DR7 comprehension. -/
def svcJhuDr7 : Service :=
  ⟨"ivo://sdss.jhu/services/siapdr7", "SDSSDR7", "SDSS DR7 SkyServer"⟩

/-- A concrete registry result table. -/
def exServices : List Service :=
  [svcGalex, svcHeasarcDr7, svcJhuDr7]

/-- The sky position the notebook queries. -/
def posM51 : Pos := "m51"

/-- A concrete instance of the JHU SkyServer DR7 service: it has result
records, but serves them only for the empty format string. -/
def jhuServiceEx : SIAService :=
  ⟨jhuDr7Accepts, fun _ _ _ => [exRec]⟩

/-- A concrete data URL used to instantiate the cache theorems. -/
def urlExample : String :=
  "https://skyview.gsfc.nasa.gov/images/sdss_g_m51.fits"

/-- An environment in which `fits.open` raises a network error and every
other operation completes. -/
def envFitsFail : Op → Except Err Unit :=
  fun op =>
    match op with
    | Op.fitsOpenOp => Except.error Err.netError
    | _ => Except.ok ()

/-- A successful Python index yields a member of the list. -/
lemma pyGetIdx_ok_mem {α : Type} (xs : List α) (i : Nat) (x : α)
    (h : pyGetIdx xs i = Except.ok x) : x ∈ xs := by
  unfold pyGetIdx at h
  cases hg : xs.get? i with
  | none => rw [hg] at h; exact absurd h (by simp)
  | some y =>
    rw [hg] at h
    cases h
    exact List.get?_mem hg

/-- Python indexing succeeds exactly on in-range indices. -/
lemma pyGetIdx_ok_iff {α : Type} (xs : List α) (i : Nat) :
    (∃ x, pyGetIdx xs i = Except.ok x) ↔ i < xs.length := by
  constructor
  · rintro ⟨x, hx⟩
    unfold pyGetIdx at hx
    cases hg : xs.get? i with
    | none => rw [hg] at hx; exact absurd hx (by simp)
    | some y =>
      obtain ⟨hlt, _⟩ := List.get?_eq_some.mp hg
      exact hlt
  · intro h
    refine ⟨xs.get ⟨i, h⟩, ?_⟩
    unfold pyGetIdx
    rw [List.get?_eq_get h]

/-- Out-of-range Python indexing raises `IndexError`. -/
lemma pyGetIdx_oob {α : Type} (xs : List α) (i : Nat) (h : xs.length ≤ i) :
    pyGetIdx xs i = Except.error Err.indexError := by
  unfold pyGetIdx
  rw [List.get?_eq_none.mpr h]

/-- The comprehension filter keeps the head when it matches. -/
lemma selectFirst_cons_pos (p : Service → Bool) (s : Service)
    (rest : List Service) (h : p s = true) :
    selectFirst p (s :: rest) = Except.ok s := by
  unfold selectFirst
  rw [List.filter_cons_of_pos h]
  rfl

/-- The comprehension filter skips the head when it does not match. -/
lemma selectFirst_cons_neg (p : Service → Bool) (s : Service)
    (rest : List Service) (h : p s = false) :
    selectFirst p (s :: rest) = selectFirst p rest := by
  unfold selectFirst
  rw [List.filter_cons_of_neg (by simp [h])]

/-- The executed trace is an initial segment of the program: no operation
is ever re-executed or executed out of order (hence no retry policy
exists). -/
lemma runTrace_take (env : Op → Except Err Unit) (ops : List Op) :
    ∃ k, (runTrace env ops).1 = ops.take k := by
  induction ops with
  | nil => exact ⟨0, rfl⟩
  | cons o rest ih =>
    cases h : env o with
    | error e => exact ⟨1, by simp [runTrace, h]⟩
    | ok u =>
      obtain ⟨k, hk⟩ := ih
      exact ⟨k + 1, by simp [runTrace, h, hk]⟩

/-- The first exception raised by an operation becomes the outcome of the
whole run: nothing catches it. -/
lemma runTrace_error (env : Op → Except Err Unit) (ops : List Op) (i : Nat)
    (e : Err) (h1 : i < ops.length)
    (hpre : ∀ o ∈ ops.take i, env o = Except.ok ())
    (he : env (ops.get ⟨i, h1⟩) = Except.error e) :
    (runTrace env ops).2 = Except.error e := by
  induction ops generalizing i with
  | nil => exact absurd h1 (by simp)
  | cons o rest ih =>
    cases i with
    | zero =>
      have ho : env o = Except.error e := he
      simp [runTrace, ho]
    | succ i =>
      have ho : env o = Except.ok () := hpre o (by simp)
      simp only [runTrace, ho]
      exact ih i (Nat.lt_of_succ_lt_succ h1)
        (fun o2 h2 => hpre o2 (by simp [h2])) he

/-- Incrementing a list of indices and indexing into a cons cell is
indexing the tail with the original indices. -/
lemma filterMap_get_map_succ {α : Type} (l : List Nat) (a : α)
    (rest : List α) :
    (l.map (fun i => i + 1)).filterMap (fun i => (a :: rest).get? i) =
      l.filterMap (fun i => rest.get? i) := by
  rw [List.filterMap_map]
  rfl

/-- The numpy `isin`/`where`/fancy-indexing pipeline is equality
filtering: it keeps exactly the rows whose `short_name` equals `v`, in
their original order. -/
lemma isinWhereSelect_eq_filter (tbl : List Service) (v : String) :
    isinWhereSelect tbl v =
      tbl.filter (fun s => decide (s.short_name = v)) := by
  induction tbl with
  | nil => rfl
  | cons s rest ih =>
    have ih2 : (npWhere (npIsin (rest.map Service.short_name) v)).filterMap
        (fun i => rest.get? i) =
        rest.filter (fun s => decide (s.short_name = v)) := ih
    have e1 : npIsin ((s :: rest).map Service.short_name) v =
        decide (s.short_name = v) :: npIsin (rest.map Service.short_name) v := rfl
    have e2 : npWhere (decide (s.short_name = v) ::
          npIsin (rest.map Service.short_name) v) =
        (if decide (s.short_name = v) then [0] else []) ++
          (npWhere (npIsin (rest.map Service.short_name) v)).map
            (fun i => i + 1) := rfl
    unfold isinWhereSelect
    rw [e1, e2, List.filterMap_append, filterMap_get_map_succ, ih2]
    by_cases h : s.short_name = v
    · rw [List.filter_cons]
      simp [h]
    · rw [List.filter_cons]
      simp [h]

/-- Any operation other than a caching download leaves the persistent
download cache unchanged. -/
lemma opCacheStep_eq (op : Op) (url : String) (c : List String)
    (h : op.isCachingDownload = false) : opCacheStep op url c = c := by
  cases op with
  | downloadFileOp b =>
    cases b with
    | true => exact absurd h (by decide)
    | false => rfl
  | regsearchOp st wb kw => rfl
  | toTableOp => rfl
  | fromNameOp s => rfl
  | selectOp k => rfl
  | npFilterOp => rfl
  | siaSearchOp k f => rfl
  | getdataurlOp t i => rfl
  | printOp => rfl
  | displayOp => rfl
  | fitsOpenOp => rfl
  | plotOp => rfl

/-- C8: the service-selection comprehension
`[s for s in services if 'SDSSDR7' in s.short_name and 'heasarc' in s.ivoid][0]`
returns the first service, in the order the registry returned them, whose
`short_name` contains `SDSSDR7` and whose `ivoid` contains `heasarc`; when
some service matches it returns that first match, and when none matches it
raises `IndexError`. -/
theorem c8_selectFirst_semantics (l : List Service) :
    ((∃ s ∈ l, dr7Heasarc s = true) →
      ∃ pre s suf, l = pre ++ s :: suf ∧ dr7Heasarc s = true ∧
        (∀ t ∈ pre, dr7Heasarc t = false) ∧
        selectFirst dr7Heasarc l = Except.ok s)
    ∧ ((∀ s ∈ l, dr7Heasarc s = false) →
      selectFirst dr7Heasarc l = Except.error Err.indexError) := by
  induction l with
  | nil =>
    constructor
    · rintro ⟨s, hs, -⟩
      exact absurd hs (List.not_mem_nil s)
    · intro _
      rfl
  | cons a rest ih =>
    constructor
    · rintro ⟨s, hs, hps⟩
      by_cases ha : dr7Heasarc a = true
      · exact ⟨[], a, rest, rfl, ha, by simp, selectFirst_cons_pos _ _ _ ha⟩
      · have ha2 : dr7Heasarc a = false := by
          cases h2 : dr7Heasarc a with
          | true => exact absurd h2 ha
          | false => rfl
        have hsrest : ∃ s2 ∈ rest, dr7Heasarc s2 = true := by
          rcases List.mem_cons.mp hs with h1 | h1
          · rw [h1] at hps
            exact absurd hps ha
          · exact ⟨s, h1, hps⟩
        obtain ⟨pre, s2, suf, hdec, hps2, hpre, hsel⟩ := ih.1 hsrest
        refine ⟨a :: pre, s2, suf, by rw [hdec]; rfl, hps2, ?_, ?_⟩
        · intro t ht
          rcases List.mem_cons.mp ht with h1 | h1
          · rw [h1]
            exact ha2
          · exact hpre t h1
        · rw [selectFirst_cons_neg _ _ _ ha2]
          exact hsel
    · intro hall
      have ha : dr7Heasarc a = false := hall a (List.mem_cons_self a rest)
      rw [selectFirst_cons_neg _ _ _ ha]
      exact ih.2 (fun s hs => hall s (List.mem_cons_of_mem a hs))

/-- Witness for C8 on a concrete registry table: the comprehension picks
the HEASARC DR7 row, which is the first match. -/
theorem c8_witness :
    ∃ pre s suf, exServices = pre ++ s :: suf ∧ dr7Heasarc s = true ∧
      (∀ t ∈ pre, dr7Heasarc t = false) ∧
      selectFirst dr7Heasarc exServices = Except.ok s :=
  (c8_selectFirst_semantics exServices).1 ⟨svcHeasarcDr7, by decide, by decide⟩

/-- C10: the row filter
`services.to_table()[np.where(np.isin(services.to_table()['short_name'], b'SDSSDR7'))]`
keeps exactly the rows whose `short_name` equals the given byte string —
exact equality, as an equality filter — and preserves the original row
order of the table. -/
theorem c10_isin_filter_eq (tbl : List Service) (v : String) :
    isinWhereSelect tbl v =
      tbl.filter (fun s => decide (s.short_name = v))
    ∧ (isinWhereSelect tbl v).Sublist tbl := by
  refine ⟨isinWhereSelect_eq_filter tbl v, ?_⟩
  rw [isinWhereSelect_eq_filter]
  exact List.filter_sublist tbl

/-- C9: every indexing step is unguarded: `xs[i]` succeeds exactly when
the table holds more than `i` records, and an out-of-range index in a
download cell raises `IndexError` before any URL is downloaded. -/
theorem c9_indexing_preconditions :
    (∀ (xs : List ImRec) (i : Nat),
      (∃ x, pyGetIdx xs i = Except.ok x) ↔ i < xs.length)
    ∧ (∀ (xs : List Service) (i : Nat),
      (∃ x, pyGetIdx xs i = Except.ok x) ↔ i < xs.length)
    ∧ (∀ (fetch : ImRec → String) (l : List ImRec) (i : Nat), l.length ≤ i →
        downloadCellAt fetch l i = ([], Except.error Err.indexError)) := by
  refine ⟨fun xs i => pyGetIdx_ok_iff xs i, fun xs i => pyGetIdx_ok_iff xs i, ?_⟩
  intro fetch l i h
  unfold downloadCellAt
  rw [pyGetIdx_oob l i h]

/-- Witness for C9: a one-record table satisfies the precondition of
index 0, and indexing it at 1 — the `sdss_table_jhu[1]` access — fails with
`IndexError` and downloads nothing. -/
theorem c9_witness :
    (∃ x, pyGetIdx [exRec] 0 = Except.ok x)
    ∧ downloadCellAt ImRec.getdataurl [exRec] 1 =
        ([], Except.error Err.indexError) :=
  ⟨(c9_indexing_preconditions.1 [exRec] 0).mpr (by decide),
   c9_indexing_preconditions.2.2 ImRec.getdataurl [exRec] 1 (by decide)⟩

/-- C5: every image result record exposes `getdataurl`, returning the
record's access URL whatever column name the producing service chose for
it, and `getdataobj`, fetching the decoded payload behind that URL
directly. -/
theorem c5_getdataurl_access :
    (∀ r : ImRec, r.columns.lookup r.accessCol = some r.getdataurl)
    ∧ (∀ (fetch : String → List Nat) (r : ImRec),
        ImRec.getdataobj fetch r = fetch r.getdataurl) := by
  refine ⟨fun r => ?_, fun fetch r => rfl⟩
  unfold ImRec.getdataurl
  exact (Option.some_get r.hAccess).symm

/-- C6: every registry search the notebooks perform passes the
`servicetype='image'` filter (with waveband and keyword list as optional
extra filters), and the notebooks only read the returned descriptors,
never write them: a selected service is an unmodified member of the
returned table and the numpy row filter yields a subsequence of it. -/
theorem c6_regsearch_reads :
    (∀ op ∈ notebookProgram, op.isRegsearch = true →
      op.regsearchServicetype = some (some "image"))
    ∧ (∀ (p : Service → Bool) (l : List Service) (s : Service),
        selectFirst p l = Except.ok s → s ∈ l)
    ∧ (∀ (tbl : List Service) (v : String), (isinWhereSelect tbl v).Sublist tbl) := by
  refine ⟨by decide, ?_, ?_⟩
  · intro p l s h
    exact List.mem_of_mem_filter (pyGetIdx_ok_mem _ _ _ h)
  · intro tbl v
    rw [isinWhereSelect_eq_filter]
    exact List.filter_sublist tbl

/-- Witness for C6: the first registry search of the notebook passes
`servicetype='image'`, and a concretely selected descriptor is a member of
the concrete registry table. -/
theorem c6_witness :
    (Op.regsearchOp (some "image") (some "uv") none).regsearchServicetype =
      some (some "image")
    ∧ svcHeasarcDr7 ∈ exServices :=
  ⟨c6_regsearch_reads.1 (Op.regsearchOp (some "image") (some "uv") none)
      (by decide) (by decide),
   c6_regsearch_reads.2.1 dr7Heasarc exServices svcHeasarcDr7 (by decide)⟩

/-- C4: the workflow order is fixed: a service selection only happens
after a registry search, an image query only after a selection, a data-URL
extraction only after an image query, a payload download or display fetch
only after a data-URL extraction, and a plot only after a fetched
payload. -/
theorem c4_workflow_order :
    ∀ i : Fin notebookProgram.length,
      ((notebookProgram.get i).isSelect = true →
        ∃ j : Fin notebookProgram.length, j < i ∧
          (notebookProgram.get j).isRegsearch = true)
      ∧ ((notebookProgram.get i).isSiaSearch = true →
        ∃ j : Fin notebookProgram.length, j < i ∧
          (notebookProgram.get j).isSelect = true)
      ∧ ((notebookProgram.get i).isGetdataurl = true →
        ∃ j : Fin notebookProgram.length, j < i ∧
          (notebookProgram.get j).isSiaSearch = true)
      ∧ ((notebookProgram.get i).isFetch = true →
        ∃ j : Fin notebookProgram.length, j < i ∧
          (notebookProgram.get j).isGetdataurl = true)
      ∧ ((notebookProgram.get i).isPlot = true →
        ∃ j : Fin notebookProgram.length, j < i ∧
          (notebookProgram.get j).isFetch = true) := by
  decide

/-- Witness for C4: the first image query of the notebook (operation 6,
the `uvot_services[0].search(...)` call) is preceded by a service
selection. -/
theorem c4_witness :
    ∃ j : Fin notebookProgram.length, j < (⟨6, by decide⟩ : Fin notebookProgram.length) ∧
      (notebookProgram.get j).isSelect = true :=
  (c4_workflow_order ⟨6, by decide⟩).2.1 (by decide)

/-- C3: there is no retry, timeout or recovery logic: the executed trace
of the notebook is always an initial segment of its operation list (no
operation runs twice), and the first exception an external call raises is
the uncaught outcome of the whole run. -/
theorem c3_exceptions_uncaught (env : Op → Except Err Unit) :
    (∃ k, (runTrace env notebookProgram).1 = notebookProgram.take k)
    ∧ (∀ (e : Err) (i : Nat) (h1 : i < notebookProgram.length),
        (∀ o ∈ notebookProgram.take i, env o = Except.ok ()) →
        env (notebookProgram.get ⟨i, h1⟩) = Except.error e →
        (runTrace env notebookProgram).2 = Except.error e) :=
  ⟨runTrace_take env notebookProgram,
   fun e i h1 hpre he => runTrace_error env notebookProgram i e h1 hpre he⟩

/-- Witness for C3: in an environment where `fits.open` raises a network
error (operation 15 of the notebook) and everything before it succeeds,
the whole run ends with exactly that error. -/
theorem c3_witness :
    (runTrace envFitsFail notebookProgram).2 = Except.error Err.netError :=
  (c3_exceptions_uncaught envFitsFail).2 Err.netError 15 (by decide)
    (by decide) (by decide)

/-- C1 counterexample: the JHU SkyServer DR7 service is queried by the
notebook (with the empty format string), its query with that explicit
format returns a table of records, but the same query with the format
omitted raises a service error instead of returning a table — refuting
"for every service the notebooks query, the query may omit the format
string and still return a table of result records rather than fail". -/
theorem c1_counterexample :
    Op.siaSearchOp SelKind.jhuDr7 (some "") ∈ notebookProgram
    ∧ SIAService.search jhuServiceEx posM51 (1 / 5 : Rat) (some "") =
        Except.ok [exRec]
    ∧ SIAService.search jhuServiceEx posM51 (1 / 5 : Rat) none =
        Except.error Err.serviceError :=
  ⟨by decide, rfl, rfl⟩

/-- C1 (amended): the image-access query interface accepts sky position,
angular size and an optional MIME-type format string, and returns a table
of result records whenever the queried service accepts the resolved
format; every query the notebooks issue passes an explicit format the
queried service accepts, but the format may not be omitted for every
service: the JHU DR7 service rejects the `all` format that an omitted
parameter resolves to. -/
theorem c1_amended_format_handling :
    (∀ (svc : SIAService) (pos : Pos) (size : Rat) (fmt : Option String),
      svc.accepts (resolveFormat fmt) = true →
      SIAService.search svc pos size fmt =
        Except.ok (svc.results pos size (resolveFormat fmt)))
    ∧ (∀ op ∈ notebookProgram, siaQueryOk op = true)
    ∧ jhuDr7Accepts (resolveFormat none) = false := by
  refine ⟨?_, by decide, by decide⟩
  intro svc pos size fmt h
  unfold SIAService.search
  rw [if_pos h]

/-- Witness for C1 (amended): the notebook's actual JHU query, with the
explicit empty format string, returns the service's result table. -/
theorem c1_witness :
    SIAService.search jhuServiceEx posM51 (1 / 5 : Rat) (some "") =
      Except.ok (jhuServiceEx.results posM51 (1 / 5 : Rat)
        (resolveFormat (some ""))) :=
  c1_amended_format_handling.1 jhuServiceEx posM51 (1 / 5 : Rat) (some "")
    (by decide)

/-- C2 counterexample: the heasarc download cell of the notebook calls
`download_file(..., cache=True)`; started with an empty persistent
download cache it leaves behind a non-empty one, so state created by the
cell survives the cell — refuting "after any cell completes no state
created by that cell survives outside its displayed output". -/
theorem c2_counterexample :
    notebookCells.get? 10 = some cellHeasarcDownload
    ∧ cellCacheRun cellHeasarcDownload urlExample [] ≠ [] := by
  exact ⟨rfl, by decide⟩

/-- C2 (amended): apart from the two `download_file(..., cache=True)`
calls — which persist the downloaded URL into the astropy download cache,
state that survives the cell — no notebook operation changes persistent
state, and the caching downloads add exactly the fetched URL to the
cache. -/
theorem c2_amended_persistence :
    (∀ op ∈ notebookProgram, op.isCachingDownload = false →
      ∀ url c, opCacheStep op url c = c)
    ∧ (notebookProgram.filter Op.isCachingDownload).length = 2
    ∧ (∀ (url : String) (c : List String), url ∉ c →
        opCacheStep (Op.downloadFileOp true) url c = url :: c) := by
  refine ⟨fun op _ h url c => opCacheStep_eq op url c h, by decide, ?_⟩
  intro url c h
  show (if url ∈ c then c else url :: c) = url :: c
  rw [if_neg h]

/-- Witness for C2 (amended): printing a URL leaves an empty cache empty,
while a caching download of the example URL adds it. -/
theorem c2_witness :
    opCacheStep Op.printOp urlExample [] = []
    ∧ opCacheStep (Op.downloadFileOp true) urlExample [] = [urlExample] :=
  ⟨c2_amended_persistence.1 Op.printOp (by decide) (by decide) urlExample [],
   c2_amended_persistence.2.2 urlExample [] (by decide)⟩

end AasWorkshop
